import Mathlib

/-!
Verification of the raster-to-heightmap conversion pipeline implemented in
src/unity_terrain_exporter/convert_unity_raw.py.

The pipeline's numeric core is embedded shallowly:
* a raster band is a `Grid ℚ` (row-major 2-D array of samples; Python floats
  are modelled by exact rationals);
* a validity mask is a `Grid Bool`;
* the affine geotransform is a `GeoTransform` (the 6 GDAL coefficients);
* the stages (`extentNormalize`, `detectAndExcludePadding`, `quantizeGrid`,
  `utmEpsgCode`, `isGeographic`) are direct translations of the
  corresponding Python functions, with numpy slice clamping made explicit;
* `processCore` chains the stages the way `process_geotiff_for_unity` does,
  recording progress-sink messages as `LogEvent` values, and
  `processWithBoundary` models the outer try/except/finally of that
  function, with exceptions of the body modelled as `Except.error` values.
-/

namespace UnityRawExport

/-- A 2-D array with explicit shape; `entry i j` is the sample at row `i`,
column `j`.  Entries outside the shape are irrelevant: every operation below
only consults indices `i < rows`, `j < cols`, matching numpy indexing. -/
structure Grid (α : Type) where
  rows : ℕ
  cols : ℕ
  entry : ℕ → ℕ → α

/-- Number of positions `(i, j)` with `i < rows`, `j < cols` satisfying `p`.
This is the model of `np.sum` over a boolean array. -/
def countGrid (rows cols : ℕ) (p : ℕ → ℕ → Bool) : ℕ :=
  ((List.range rows).map (fun i => ((List.range cols).filter (fun j => p i j)).length)).sum

/-- Model of `mask.any()`: at least one `true` inside the shape. -/
def gridAny (g : Grid Bool) : Bool :=
  decide (0 < countGrid g.rows g.cols g.entry)

/-!
## Zone Resolver (`get_utm_epsg_code`, lines 63-77)

The center longitude/latitude obtained from the coordinate transformation
are parameters here; the source computes
`utm_zone = math.floor((lon + 180) / 6) + 1` and picks base 32600 for
`lat >= 0`, 32700 otherwise.
-/

/-- Line 65: `utm_zone = math.floor((lon + 180) / 6) + 1`. -/
def utmZone (lon : ℚ) : ℤ :=
  Rat.floor ((lon + 180) / 6) + 1

/-- Lines 69-72: hemisphere selection and base EPSG code. -/
def utmEpsgCode (lon lat : ℚ) : ℤ :=
  if 0 ≤ lat then 32600 + utmZone lon else 32700 + utmZone lon

/-!
## Extent Normalizer (`process_geotiff_for_unity`, lines 296-324)

A square raster is passed through unchanged; a non-square raster is cropped
to the centered `min(cols, rows)` square via
`x_offset = (cols - min_dim) // 2`, `y_offset = (rows - min_dim) // 2`,
`srcWin = [x_offset, y_offset, min_dim, min_dim]`.
-/

/-- Line 309: `x_offset = (cols - min_dim) // 2`. -/
def xCropOffset (cols rows : ℕ) : ℕ :=
  (cols - min cols rows) / 2

/-- Line 310: `y_offset = (rows - min_dim) // 2`. -/
def yCropOffset (cols rows : ℕ) : ℕ :=
  (rows - min cols rows) / 2

/-- Lines 300-324: the square-crop stage.  The square branch returns the
input dataset itself (`cropped_ds = dataset`); the other branch models
`gdal.Translate` with the `srcWin` window above: pixel `(i, j)` of the crop
is pixel `(i + y_offset, j + x_offset)` of the input. -/
def extentNormalize (r : Grid ℚ) : Grid ℚ :=
  if r.cols = r.rows then r
  else
    { rows := min r.cols r.rows
      cols := min r.cols r.rows
      entry := fun i j => r.entry (i + yCropOffset r.cols r.rows) (j + xCropOffset r.cols r.rows) }

/-- Concrete non-square raster (rows = 2, cols = 10) used to instantiate the
crop-offset theorems. -/
def wideGrid : Grid ℚ :=
  { rows := 2, cols := 10, entry := fun i j => (i : ℚ) + j }

/-- Concrete square raster used to instantiate the square-identity theorem. -/
def squareGrid : Grid ℚ :=
  { rows := 3, cols := 3, entry := fun i j => (i : ℚ) * 3 + j }

/-- C4: the Zone Resolver computes `zone = floor((lon + 180) / 6) + 1` and
returns `32600 + zone` for `lat ≥ 0`, `32700 + zone` for `lat < 0`;
longitude 0 gives zone 31, longitude 177 gives zone 60, longitude -177
gives zone 1, and longitude 180 gives zone 61, one past the valid range,
which is not clamped (the returned identifier 32661 is outside 32601-32660). -/
theorem c4_zone_resolver :
    (∀ lon lat : ℚ, utmEpsgCode lon lat =
      if 0 ≤ lat then 32600 + (⌊(lon + 180) / 6⌋ + 1) else 32700 + (⌊(lon + 180) / 6⌋ + 1)) ∧
    utmZone 0 = 31 ∧ utmZone 177 = 60 ∧ utmZone (-177) = 1 ∧ utmZone 180 = 61 ∧
    utmEpsgCode 180 45 = 32661 ∧ utmEpsgCode 180 (-45) = 32761 := by
  have hfloor : ∀ q : ℚ, Rat.floor q = ⌊q⌋ := fun q => by
    rw [Rat.floor_def' q, ← Rat.floor_def]
  refine ⟨fun lon lat => ?_, by with_unfolding_all rfl, by with_unfolding_all rfl,
    by with_unfolding_all rfl, by with_unfolding_all rfl,
    by with_unfolding_all rfl, by with_unfolding_all rfl⟩
  simp only [utmEpsgCode, utmZone, hfloor]

/-- C5 (amended): for every non-square raster the crop stage produces a
`min(cols, rows)` square, the offsets satisfy `xOffset + m ≤ cols` and
`yOffset + m ≤ rows`, and the documented examples hold:
`(w, h) = (101, 201)` yields offsets `(0, 50)` and `(200, 100)` yields
`(50, 0)`.  (The original claim's clause that both offsets are `< m` is
false; see the counterexample.) -/
theorem c5_crop_offsets (r : Grid ℚ) (h : r.cols ≠ r.rows) :
    (extentNormalize r).rows = min r.cols r.rows ∧
    (extentNormalize r).cols = min r.cols r.rows ∧
    xCropOffset r.cols r.rows + min r.cols r.rows ≤ r.cols ∧
    yCropOffset r.cols r.rows + min r.cols r.rows ≤ r.rows ∧
    xCropOffset 101 201 = 0 ∧ yCropOffset 101 201 = 50 ∧
    xCropOffset 200 100 = 50 ∧ yCropOffset 200 100 = 0 := by
  unfold extentNormalize
  rw [if_neg h]
  refine ⟨rfl, rfl, ?_, ?_, by decide, by decide, by decide, by decide⟩
  · unfold xCropOffset
    omega
  · unfold yCropOffset
    omega

/-- C5 counterexample: at `(cols, rows) = (10, 2)` the raster is non-square
and `xOffset = 4` is not `< min(cols, rows) = 2`, refuting the claim's
"both offsets are < m". -/
theorem c5_counterexample :
    (10 : ℕ) ≠ 2 ∧ xCropOffset 10 2 = 4 ∧ min 10 2 = 2 ∧
    ¬ (xCropOffset 10 2 < min 10 2) := by
  decide

/-- C5 witness: the amended statement instantiated at the concrete 2x10
raster `wideGrid`. -/
theorem c5_crop_offsets_check :
    (extentNormalize wideGrid).rows = min wideGrid.cols wideGrid.rows ∧
    (extentNormalize wideGrid).cols = min wideGrid.cols wideGrid.rows ∧
    xCropOffset wideGrid.cols wideGrid.rows + min wideGrid.cols wideGrid.rows ≤ wideGrid.cols ∧
    yCropOffset wideGrid.cols wideGrid.rows + min wideGrid.cols wideGrid.rows ≤ wideGrid.rows ∧
    xCropOffset 101 201 = 0 ∧ yCropOffset 101 201 = 50 ∧
    xCropOffset 200 100 = 50 ∧ yCropOffset 200 100 = 0 :=
  c5_crop_offsets wideGrid (by decide)

/-- C6: a square raster is returned by the crop stage unchanged — the very
same raster value, no crop and no copy. -/
theorem c6_square_identity (r : Grid ℚ) (h : r.cols = r.rows) :
    extentNormalize r = r := by
  unfold extentNormalize
  rw [if_pos h]

/-- C6 witness: the square 3x3 raster is returned unchanged. -/
theorem c6_square_identity_check : extentNormalize squareGrid = squareGrid :=
  c6_square_identity squareGrid rfl

/-!
## Validity Classifier: padding heuristic (`detect_and_exclude_padding`, lines 201-260)

The source receives `rows`/`cols` arguments that at its only call site equal
the array's shape, so the embedding reads the shape from the grid.  The
numpy slices building the border mask clamp at the edges; with truncated ℕ
subtraction, `a[-border_size:]` is exactly the rows `i` with
`rows - border_size ≤ i`.  The center region is built (line 238-241) from
`center_start = rows // 4`, `center_end = 3 * rows // 4` used for BOTH the
row and the column axis.
-/

/-- Line 219: `zero_mask = data == 0`, at one position. -/
def isZeroAt (data : Grid ℚ) (i j : ℕ) : Bool :=
  decide (data.entry i j = 0)

/-- Line 220: `zero_count = zero_mask.sum()`. -/
def zeroCountOf (data : Grid ℚ) : ℕ :=
  countGrid data.rows data.cols (fun i j => isZeroAt data i j)

/-- Line 221: `non_zero_count = (~zero_mask).sum()`. -/
def nonZeroCountOf (data : Grid ℚ) : ℕ :=
  countGrid data.rows data.cols (fun i j => !isZeroAt data i j)

/-- Line 228: `border_size = max(5, min(cols, rows) // 20)`. -/
def borderSizeOf (data : Grid ℚ) : ℕ :=
  max 5 (min data.cols data.rows / 20)

/-- Lines 231-235: membership in the border band (union of the four edge
slices, with numpy negative-index clamping). -/
def inBorderBand (data : Grid ℚ) (i j : ℕ) : Bool :=
  decide (i < borderSizeOf data) || decide (data.rows - borderSizeOf data ≤ i) ||
    decide (j < borderSizeOf data) || decide (data.cols - borderSizeOf data ≤ j)

/-- Lines 238-241: membership in the center region.  The source uses the
row-derived range `rows // 4 ≤ k < 3 * rows // 4` for both axes. -/
def inCenterBand (data : Grid ℚ) (i j : ℕ) : Bool :=
  decide (data.rows / 4 ≤ i) && decide (i < 3 * data.rows / 4) &&
    decide (data.rows / 4 ≤ j) && decide (j < 3 * data.rows / 4)

/-- Line 244: `border_zeros = np.sum(zero_mask & border_mask)`. -/
def borderZeroCount (data : Grid ℚ) : ℕ :=
  countGrid data.rows data.cols (fun i j => isZeroAt data i j && inBorderBand data i j)

/-- Line 245: `border_total = np.sum(border_mask)`. -/
def borderTotalCount (data : Grid ℚ) : ℕ :=
  countGrid data.rows data.cols (fun i j => inBorderBand data i j)

/-- Line 246: `border_zero_ratio = border_zeros / border_total if border_total > 0 else 0`. -/
def borderZeroFrac (data : Grid ℚ) : ℚ :=
  if 0 < borderTotalCount data then (borderZeroCount data : ℚ) / borderTotalCount data else 0

/-- Line 248: `center_zeros = np.sum(zero_mask & center_mask)`. -/
def centerZeroCount (data : Grid ℚ) : ℕ :=
  countGrid data.rows data.cols (fun i j => isZeroAt data i j && inCenterBand data i j)

/-- Line 249: `center_total = np.sum(center_mask)`. -/
def centerTotalCount (data : Grid ℚ) : ℕ :=
  countGrid data.rows data.cols (fun i j => inCenterBand data i j)

/-- Line 250: `center_zero_ratio = center_zeros / center_total if center_total > 0 else 0`. -/
def centerZeroFrac (data : Grid ℚ) : ℚ :=
  if 0 < centerTotalCount data then (centerZeroCount data : ℚ) / centerTotalCount data else 0

/-- Line 254: the condition
`border_zero_ratio > 0.3 and (center_zero_ratio == 0 or border_zero_ratio > 3 * center_zero_ratio)`. -/
def paddingTrigger (data : Grid ℚ) : Prop :=
  3 / 10 < borderZeroFrac data ∧
    (centerZeroFrac data = 0 ∨ 3 * centerZeroFrac data < borderZeroFrac data)

instance decPaddingTrigger (data : Grid ℚ) : Decidable (paddingTrigger data) := by
  unfold paddingTrigger
  infer_instance

/-- Line 256: `updated_mask = mask & ~zero_mask`. -/
def subtractZeroPixels (data : Grid ℚ) (mask : Grid Bool) : Grid Bool :=
  { rows := mask.rows
    cols := mask.cols
    entry := fun i j => mask.entry i j && !isZeroAt data i j }

/-- Lines 219-260: the whole padding-exclusion stage. -/
def detectAndExcludePadding (data : Grid ℚ) (mask : Grid Bool) : Grid Bool × Bool :=
  if zeroCountOf data = 0 ∨ nonZeroCountOf data = 0 then (mask, false)
  else if paddingTrigger data then (subtractZeroPixels data mask, true)
  else (mask, false)

/-!
Claim-side definitions for C2.  The claim describes the center band as "the
square spanning the 25%-75% range of the rows and of the columns", i.e. each
axis using its own quartile range; these definitions follow that wording so
it can be compared with the code's row-derived band above.
-/

/-- Center band as the C2 claim words it: each axis spans its own
25%-75% quartile range. -/
def claimCenterBand (data : Grid ℚ) (i j : ℕ) : Bool :=
  decide (data.rows / 4 ≤ i) && decide (i < 3 * data.rows / 4) &&
    decide (data.cols / 4 ≤ j) && decide (j < 3 * data.cols / 4)

/-- Center zero fraction over the claim's per-axis center band. -/
def claimCenterZeroFrac (data : Grid ℚ) : ℚ :=
  let t := countGrid data.rows data.cols (fun i j => claimCenterBand data i j)
  let z := countGrid data.rows data.cols (fun i j => isZeroAt data i j && claimCenterBand data i j)
  if 0 < t then (z : ℚ) / t else 0

/-- The C2 claim's exclusion condition, with its per-axis center band. -/
def claimPaddingTrigger (data : Grid ℚ) : Prop :=
  3 / 10 < borderZeroFrac data ∧
    (claimCenterZeroFrac data = 0 ∨ 3 * claimCenterZeroFrac data < borderZeroFrac data)

instance decClaimPaddingTrigger (data : Grid ℚ) : Decidable (claimPaddingTrigger data) := by
  unfold claimPaddingTrigger
  infer_instance

/-- Concrete 4x12 raster: rows 0 and 3 are all zero, and the four pixels
`(i, j)` with `i, j ∈ {1, 2}` are zero; everything else is 1.  It separates
the code's row-derived center band (columns 1-2, all zero there) from the
claim's per-axis center band (columns 3-8, no zero there). -/
def padData : Grid ℚ :=
  { rows := 4
    cols := 12
    entry := fun i j => if i = 0 ∨ i = 3 ∨ (1 ≤ j ∧ j ≤ 2) then 0 else 1 }

/-- All-true 4x12 mask accompanying `padData`. -/
def padMask : Grid Bool :=
  { rows := 4, cols := 12, entry := fun _ _ => true }

/-- Concrete 4x12 raster whose zeros are confined to the top and bottom
border rows; the padding heuristic does fire on it. -/
def borderPadData : Grid ℚ :=
  { rows := 4
    cols := 12
    entry := fun i _ => if i = 0 ∨ i = 3 then 0 else 1 }

/-- C2 (amended): the stage returns the mask unchanged and reports no
padding when there are no zeros or only zeros; otherwise, exactly when
`borderZeroRatio > 0.30` and (`centerZeroRatio == 0` or
`borderZeroRatio > 3 * centerZeroRatio`) — with the center band the square
whose row AND column index ranges are both the row-derived quartile range
`[rows/4, 3*rows/4)` — it flags padding and subtracts every zero pixel from
the mask; in every other case the mask is returned unchanged. -/
theorem c2_padding_rule (data : Grid ℚ) (mask : Grid Bool) :
    (zeroCountOf data = 0 ∨ nonZeroCountOf data = 0 →
      detectAndExcludePadding data mask = (mask, false)) ∧
    (zeroCountOf data ≠ 0 → nonZeroCountOf data ≠ 0 → paddingTrigger data →
      (detectAndExcludePadding data mask).2 = true ∧
      ∀ i j, (detectAndExcludePadding data mask).1.entry i j =
        (mask.entry i j && !(decide (data.entry i j = 0)))) ∧
    (zeroCountOf data ≠ 0 → nonZeroCountOf data ≠ 0 → ¬ paddingTrigger data →
      detectAndExcludePadding data mask = (mask, false)) := by
  unfold detectAndExcludePadding
  refine ⟨fun h => if_pos h, fun h1 h2 h3 => ?_, fun h1 h2 h3 => ?_⟩
  · rw [if_neg (by tauto), if_pos h3]
    exact ⟨rfl, fun i j => rfl⟩
  · rw [if_neg (by tauto), if_neg h3]

/-- C2 counterexample: on the 4x12 raster `padData` the claim's condition
(with the per-axis 25%-75% center band) demands that zeros be subtracted and
padding flagged, but the code reports no padding and returns the mask
unchanged — pixel (0,0) is zero-valued yet still valid. -/
theorem c2_counterexample :
    claimPaddingTrigger padData ∧
    zeroCountOf padData ≠ 0 ∧ nonZeroCountOf padData ≠ 0 ∧
    (detectAndExcludePadding padData padMask).2 = false ∧
    (detectAndExcludePadding padData padMask).1.entry 0 0 = true ∧
    padData.entry 0 0 = 0 :=
  ⟨of_decide_eq_true (by with_unfolding_all rfl),
   of_decide_eq_true (by with_unfolding_all rfl),
   of_decide_eq_true (by with_unfolding_all rfl),
   by with_unfolding_all rfl,
   by with_unfolding_all rfl,
   by with_unfolding_all rfl⟩

/-- C2 witness: on `borderPadData` (zeros only in the border rows) the
exclusion branch of the amended rule fires: padding is flagged and the
zero pixel (0,0) is subtracted from the mask. -/
theorem c2_padding_rule_check :
    (detectAndExcludePadding borderPadData padMask).2 = true ∧
    (detectAndExcludePadding borderPadData padMask).1.entry 0 0 = false := by
  have h := (c2_padding_rule borderPadData padMask).2.1
    (of_decide_eq_true (by with_unfolding_all rfl))
    (of_decide_eq_true (by with_unfolding_all rfl))
    (of_decide_eq_true (by with_unfolding_all rfl))
  refine ⟨h.1, ?_⟩
  rw [h.2 0 0]
  with_unfolding_all rfl

/-- C9: the padding-exclusion stage only ever removes pixels from the
validity mask: wherever the returned mask is true, the input mask was
already true, in both the padding-detected and the no-padding branches. -/
theorem c9_mask_never_grows (data : Grid ℚ) (mask : Grid Bool) (i j : ℕ)
    (h : (detectAndExcludePadding data mask).1.entry i j = true) :
    mask.entry i j = true := by
  unfold detectAndExcludePadding at h
  split at h
  · exact h
  · split at h
    · unfold subtractZeroPixels at h
      simp only [Bool.and_eq_true] at h
      exact h.1
    · exact h

/-- Concrete 1x1 raster with the nonzero sample 1, and the all-true 1x1
mask: the padding stage passes the mask through. -/
def oneCellData : Grid ℚ :=
  { rows := 1, cols := 1, entry := fun _ _ => 1 }

/-- All-true 1x1 mask accompanying `oneCellData`. -/
def oneCellMask : Grid Bool :=
  { rows := 1, cols := 1, entry := fun _ _ => true }

/-- C9 witness: instantiated at the 1x1 raster, where the stage keeps the
pixel valid. -/
theorem c9_mask_never_grows_check : oneCellMask.entry 0 0 = true :=
  c9_mask_never_grows oneCellData oneCellMask 0 0 (by with_unfolding_all rfl)

/-- A position count is positive when the top-left position qualifies. -/
theorem countGrid_pos (rows cols : ℕ) (p : ℕ → ℕ → Bool)
    (hr : 0 < rows) (hc : 0 < cols) (h : p 0 0 = true) :
    0 < countGrid rows cols p := by
  unfold countGrid
  have hmem0 : (0 : ℕ) ∈ List.range rows := List.mem_range.mpr hr
  have hmemf : ((List.range cols).filter (fun j => p 0 j)).length ∈
      (List.range rows).map (fun i => ((List.range cols).filter (fun j => p i j)).length) :=
    List.mem_map_of_mem _ hmem0
  have hfpos : 0 < ((List.range cols).filter (fun j => p 0 j)).length := by
    apply List.length_pos.mpr
    apply List.ne_nil_of_mem (a := 0)
    exact List.mem_filter.mpr ⟨List.mem_range.mpr hc, h⟩
  calc 0 < ((List.range cols).filter (fun j => p 0 j)).length := hfpos
    _ ≤ _ := List.single_le_sum (fun x _ => Nat.zero_le x) _ hmemf

/-- C10: the padding stage is total for every shape with at least one row
and one column: the border size is at least 5; when it reaches or exceeds a
dimension the border band covers the whole raster; each guarded ratio is 0
on an empty band; the border band is never empty; and the returned mask has
the same shape as the input mask.  (The embedding is a total function, so
no exception is possible by construction.) -/
theorem c10_padding_stage_total (data : Grid ℚ) (mask : Grid Bool)
    (hr : 1 ≤ data.rows) (hc : 1 ≤ data.cols) :
    5 ≤ borderSizeOf data ∧
    (min data.cols data.rows ≤ borderSizeOf data →
      ∀ i j, i < data.rows → j < data.cols → inBorderBand data i j = true) ∧
    (borderTotalCount data = 0 → borderZeroFrac data = 0) ∧
    (centerTotalCount data = 0 → centerZeroFrac data = 0) ∧
    0 < borderTotalCount data ∧
    (detectAndExcludePadding data mask).1.rows = mask.rows ∧
    (detectAndExcludePadding data mask).1.cols = mask.cols := by
  have hbs : 5 ≤ borderSizeOf data := le_max_left _ _
  have hshape : (detectAndExcludePadding data mask).1.rows = mask.rows ∧
      (detectAndExcludePadding data mask).1.cols = mask.cols := by
    unfold detectAndExcludePadding
    split
    · exact ⟨rfl, rfl⟩
    · split
      · exact ⟨rfl, rfl⟩
      · exact ⟨rfl, rfl⟩
  refine ⟨hbs, ?_, ?_, ?_, ?_, hshape.1, hshape.2⟩
  · intro hmin i j hi hj
    simp only [inBorderBand, Bool.or_eq_true, decide_eq_true_eq]
    omega
  · intro h
    simp [borderZeroFrac, h]
  · intro h
    simp [centerZeroFrac, h]
  · exact countGrid_pos data.rows data.cols _ hr hc
      (by simp only [inBorderBand, Bool.or_eq_true, decide_eq_true_eq]; omega)

/-- C10 witness: instantiated at the 1x1 raster and mask. -/
theorem c10_padding_stage_total_check :
    5 ≤ borderSizeOf oneCellData ∧
    (min oneCellData.cols oneCellData.rows ≤ borderSizeOf oneCellData →
      ∀ i j, i < oneCellData.rows → j < oneCellData.cols →
        inBorderBand oneCellData i j = true) ∧
    (borderTotalCount oneCellData = 0 → borderZeroFrac oneCellData = 0) ∧
    (centerTotalCount oneCellData = 0 → centerZeroFrac oneCellData = 0) ∧
    0 < borderTotalCount oneCellData ∧
    (detectAndExcludePadding oneCellData oneCellMask).1.rows = oneCellMask.rows ∧
    (detectAndExcludePadding oneCellData oneCellMask).1.cols = oneCellMask.cols :=
  c10_padding_stage_total oneCellData oneCellMask (by decide) (by decide)

/-!
## Quantizer (`process_geotiff_for_unity`, lines 352-414)

`min_height = np.min(data[mask])`, `max_height = np.max(data[mask])` are
folds of `min`/`max` over the masked samples in row-major order;
`data[~mask] = min_height` fills the excluded pixels; the flat case
produces `np.zeros_like(data, dtype=np.uint16)`; otherwise
`(data - min) / (max - min) * 65535` is cast to `uint16`, which for the
non-negative in-range values produced here truncates (floors) and wraps
modulo 2^16.
-/

/-- The masked samples `data[mask]` in row-major order. -/
def maskedValues (data : Grid ℚ) (mask : Grid Bool) : List ℚ :=
  (List.range data.rows).flatMap fun i =>
    ((List.range data.cols).filter (fun j => mask.entry i j)).map fun j => data.entry i j

/-- Fold of `min` over a list (`np.min`); 0 on the empty list, which the
pipeline never reaches (it fails first when no pixel is valid). -/
def foldMin : List ℚ → ℚ
  | [] => 0
  | a :: l => l.foldl min a

/-- Fold of `max` over a list (`np.max`); 0 on the empty list. -/
def foldMax : List ℚ → ℚ
  | [] => 0
  | a :: l => l.foldl max a

/-- Line 373: `min_height = np.min(data[mask])`. -/
def minHeight (data : Grid ℚ) (mask : Grid Bool) : ℚ :=
  foldMin (maskedValues data mask)

/-- Line 374: `max_height = np.max(data[mask])`. -/
def maxHeight (data : Grid ℚ) (mask : Grid Bool) : ℚ :=
  foldMax (maskedValues data mask)

/-- Line 377: `data[~mask] = min_height`. -/
def fillExcluded (data : Grid ℚ) (mask : Grid Bool) (mn : ℚ) : Grid ℚ :=
  { rows := data.rows
    cols := data.cols
    entry := fun i j => if mask.entry i j then data.entry i j else mn }

/-- Line 413-414: one sample through
`(sample - min) / (max - min) * 65535` followed by the `uint16` cast
(truncation and wrap, exact for the in-range values produced here). -/
def quantSample (mn mx s : ℚ) : ℕ :=
  (Rat.floor ((s - mn) / (mx - mn) * 65535)).toNat % 65536

/-- Lines 410-414: the quantization of a (filled) raster. -/
def quantizeGrid (data : Grid ℚ) (mn mx : ℚ) : Grid ℕ :=
  if mx = mn then { rows := data.rows, cols := data.cols, entry := fun _ _ => 0 }
  else { rows := data.rows, cols := data.cols, entry := fun i j => quantSample mn mx (data.entry i j) }

/-- Lines 373-414 combined: min/max over the masked samples, fill of the
excluded pixels with the minimum, then quantization. -/
def quantStage (data : Grid ℚ) (mask : Grid Bool) : Grid ℕ :=
  quantizeGrid (fillExcluded data mask (minHeight data mask))
    (minHeight data mask) (maxHeight data mask)

/-- The all-zero unsigned buffer of a given shape (`np.zeros_like`). -/
def zeroGrid (rows cols : ℕ) : Grid ℕ :=
  { rows := rows, cols := cols, entry := fun _ _ => 0 }

/-- C3: a valid-masked sample equal to the computed minimum quantizes to 0;
for non-flat terrain a valid-masked sample equal to the computed maximum
quantizes to exactly 65535 (hence within the claim's ±1 tolerance); every
quantized value fits in 16 bits; and flat terrain (max = min) produces the
all-zero buffer of the same shape as the raster. -/
theorem c3_quantization (data : Grid ℚ) (mask : Grid Bool) (i j : ℕ) :
    (mask.entry i j = true → data.entry i j = minHeight data mask →
      (quantStage data mask).entry i j = 0) ∧
    (minHeight data mask ≠ maxHeight data mask →
      mask.entry i j = true → data.entry i j = maxHeight data mask →
      (quantStage data mask).entry i j = 65535) ∧
    ((quantStage data mask).entry i j < 65536) ∧
    (minHeight data mask = maxHeight data mask →
      quantStage data mask = zeroGrid data.rows data.cols) := by
  set mn := minHeight data mask with hmn
  set mx := maxHeight data mask with hmx
  have hfloor : ∀ q : ℚ, Rat.floor q = ⌊q⌋ := fun q => by
    rw [Rat.floor_def' q, ← Rat.floor_def]
  refine ⟨?_, ?_, ?_, ?_⟩
  · intro hm hd
    unfold quantStage quantizeGrid
    by_cases hflat : mx = mn
    · rw [if_pos hflat]
    · rw [if_neg hflat]
      show quantSample mn mx ((fillExcluded data mask mn).entry i j) = 0
      unfold fillExcluded quantSample
      simp only [hm, if_true, hd]
      rw [sub_self, zero_div, zero_mul, hfloor]
      norm_num
  · intro hne hm hd
    unfold quantStage quantizeGrid
    rw [if_neg (fun h => hne h.symm)]
    show quantSample mn mx ((fillExcluded data mask mn).entry i j) = 65535
    unfold fillExcluded quantSample
    simp only [hm, if_true, hd]
    rw [div_self (sub_ne_zero.mpr (fun h => hne h.symm)), one_mul, hfloor]
    norm_num
    decide
  · unfold quantStage quantizeGrid
    by_cases hflat : mx = mn
    · rw [if_pos hflat]
      norm_num
    · rw [if_neg hflat]
      show quantSample mn mx ((fillExcluded data mask mn).entry i j) < 65536
      exact Nat.mod_lt _ (by norm_num)
  · intro hflat
    unfold quantStage quantizeGrid
    rw [if_pos hflat.symm]
    rfl

/-- Concrete 2x1 raster with samples 0 and 5, all-valid mask: min is 0,
max is 5. -/
def rampData : Grid ℚ :=
  { rows := 2, cols := 1, entry := fun i _ => if i = 0 then 0 else 5 }

/-- All-true 2x1 mask accompanying `rampData`. -/
def rampMask : Grid Bool :=
  { rows := 2, cols := 1, entry := fun _ _ => true }

/-- Concrete flat 1x1 raster (single sample 7) for the flat-terrain case. -/
def flatData : Grid ℚ :=
  { rows := 1, cols := 1, entry := fun _ _ => 7 }

/-- C3 witness: on the 2x1 ramp the minimum sample quantizes to 0 and the
maximum to 65535; on the flat 1x1 raster the output is the all-zero 1x1
buffer. -/
theorem c3_quantization_check :
    (quantStage rampData rampMask).entry 0 0 = 0 ∧
    (quantStage rampData rampMask).entry 1 0 = 65535 ∧
    quantStage flatData oneCellMask = zeroGrid 1 1 :=
  ⟨(c3_quantization rampData rampMask 0 0).1 (by with_unfolding_all rfl)
      (by with_unfolding_all rfl),
   (c3_quantization rampData rampMask 1 0).2.1
      (of_decide_eq_true (by with_unfolding_all rfl))
      (by with_unfolding_all rfl) (by with_unfolding_all rfl),
   (c3_quantization flatData oneCellMask 0 0).2.2.2 (by with_unfolding_all rfl)⟩

/-!
## The pipeline (`process_geotiff_for_unity`, lines 267-449)

`processCore` chains the stages in source order; progress-sink messages are
recorded as `LogEvent` values (their numeric payloads — sizes, heights —
are diagnostic text and are not modelled).  The `none` input models
`gdal.Open` returning no dataset (lines 289-292).  `processWithBoundary`
models the outer `try/except/finally` (lines 284, 436-449): an exception
raised anywhere in the body is an `Except.error` carrying the message text,
and the cleanup (closing datasets and `gdal.Unlink` on the in-memory
temporary) runs on every path.
-/

/-- The progress-sink messages the pipeline can emit, in source order. -/
inductive LogEvent where
  | openFailed
  | processingFile
  | squareSkipCrop
  | croppingToSquare
  | utmDetected
  | utmWarning
  | noValidPixels
  | paddingExcluded
  | suggestedSettings
  | savedOutput
  | unexpectedFailure (msg : String)
deriving DecidableEq

/-- The input dataset: the raster band, the optional no-data sentinel
(line 356) and the optional EPSG authority code of its projection
(lines 333-336). -/
structure RasterInput where
  raster : Grid ℚ
  nodata : Option ℚ
  epsg : Option ℤ

/-- What one pipeline run produces: the boolean result, the written output
buffer if any, and the emitted progress messages. -/
structure CoreResult where
  success : Bool
  output : Option (Grid ℕ)
  log : List LogEvent

/-- Lines 296-324: the raster after the square-crop stage. -/
def croppedOf (inp : RasterInput) : Grid ℚ :=
  extentNormalize inp.raster

/-- Lines 358-362: the sentinel mask on the cropped band — `data != nodata`
when a sentinel is declared, otherwise all pixels start valid. -/
def initialMask (inp : RasterInput) : Grid Bool :=
  match inp.nodata with
  | some nd =>
      { rows := (croppedOf inp).rows
        cols := (croppedOf inp).cols
        entry := fun i j => decide ((croppedOf inp).entry i j ≠ nd) }
  | none =>
      { rows := (croppedOf inp).rows
        cols := (croppedOf inp).cols
        entry := fun _ _ => true }

/-- Line 365: the mask after the padding-exclusion stage. -/
def pipelineMaskOf (inp : RasterInput) : Grid Bool :=
  (detectAndExcludePadding (croppedOf inp) (initialMask inp)).1

/-- Line 365: the padding-detected flag. -/
def paddingFlagOf (inp : RasterInput) : Bool :=
  (detectAndExcludePadding (croppedOf inp) (initialMask inp)).2

/-- Lines 331-339: UTM detection from the EPSG authority code. -/
def isUtmEpsg (code : Option ℤ) : Bool :=
  match code with
  | some e => decide ((32601 ≤ e ∧ e ≤ 32660) ∨ (32701 ≤ e ∧ e ≤ 32760))
  | none => false

/-- Lines 284-434: the body of `process_geotiff_for_unity` (inside the
`try`).  `none` models an unopenable input.  After cropping and masking,
an all-invalid mask aborts with an error message and no output
(lines 367-370); otherwise the masked range is computed, excluded pixels
are filled, the raster is quantized and the buffer is written. -/
def processCore (inp : Option RasterInput) : CoreResult :=
  match inp with
  | none => { success := false, output := none, log := [LogEvent.openFailed] }
  | some r =>
      let cropLog := if r.raster.cols = r.raster.rows
        then [LogEvent.squareSkipCrop] else [LogEvent.croppingToSquare]
      let utmLog := if isUtmEpsg r.epsg
        then [LogEvent.utmDetected] else [LogEvent.utmWarning]
      let log0 := LogEvent.processingFile :: (cropLog ++ utmLog)
      if gridAny (pipelineMaskOf r) then
        let padLog := if paddingFlagOf r then [LogEvent.paddingExcluded] else []
        { success := true
          output := some (quantStage (croppedOf r) (pipelineMaskOf r))
          log := log0 ++ padLog ++ [LogEvent.suggestedSettings, LogEvent.savedOutput] }
      else
        { success := false, output := none, log := log0 ++ [LogEvent.noValidPixels] }

/-- State of the in-memory temporary after a run: whether the cleanup
released it (`gdal.Unlink`, line 448). -/
structure CleanupState where
  tempReleased : Bool

/-- Lines 436-449: the `except`/`finally` boundary around the body.  The
body's outcome is a `CoreResult` or an exception message; the boundary
converts an exception into a logged boolean failure and runs the cleanup
on both paths. -/
def processWithBoundary (body : Except String CoreResult) : CoreResult × CleanupState :=
  match body with
  | Except.ok res => (res, { tempReleased := true })
  | Except.error e =>
      ({ success := false, output := none, log := [LogEvent.unexpectedFailure e] },
       { tempReleased := true })

/-- The full guarded pipeline on an exception-free body. -/
def processGeotiffForUnity (inp : Option RasterInput) : CoreResult × CleanupState :=
  processWithBoundary (Except.ok (processCore inp))

/-- C7: when after sentinel and padding exclusion no pixel remains valid,
the pipeline logs the no-valid-pixels error, returns failure, and writes
no output. -/
theorem c7_all_invalid_fails (inp : RasterInput)
    (h : gridAny (pipelineMaskOf inp) = false) :
    (processCore (some inp)).success = false ∧
    (processCore (some inp)).output = none ∧
    LogEvent.noValidPixels ∈ (processCore (some inp)).log := by
  unfold processCore
  simp only [h, Bool.false_eq_true, if_false]
  simp

/-- Concrete all-sentinel input: every sample equals the declared
no-data value 7, so no pixel survives masking. -/
def allSentinelInput : RasterInput :=
  { raster := { rows := 1, cols := 1, entry := fun _ _ => 7 }
    nodata := some 7
    epsg := none }

/-- C7 witness: the all-sentinel raster fails with the error logged and no
output written. -/
theorem c7_all_invalid_fails_check :
    (processCore (some allSentinelInput)).success = false ∧
    (processCore (some allSentinelInput)).output = none ∧
    LogEvent.noValidPixels ∈ (processCore (some allSentinelInput)).log :=
  c7_all_invalid_fails allSentinelInput (by with_unfolding_all rfl)

/-- C8: every outcome of the conversion body is absorbed at the boundary:
an exception anywhere in the body is converted into a logged boolean
failure (its message text is in the log) rather than propagating — the
boundary is a total function into results — and the cleanup that releases
the in-memory temporary runs on every exit path. -/
theorem c8_boundary_absorbs (body : Except String CoreResult) :
    (processWithBoundary body).2.tempReleased = true ∧
    (∀ e, body = Except.error e →
      (processWithBoundary body).1.success = false ∧
      (processWithBoundary body).1.output = none ∧
      LogEvent.unexpectedFailure e ∈ (processWithBoundary body).1.log) ∧
    (∀ res, body = Except.ok res → (processWithBoundary body).1 = res) := by
  refine ⟨?_, ?_, ?_⟩
  · cases body <;> rfl
  · intro e he
    subst he
    exact ⟨rfl, rfl, by simp [processWithBoundary]⟩
  · intro res hres
    subst hres
    rfl

/-- C8 witness: a concrete exception ("boom") is caught, logged with its
message, converted to failure, and the temporary is still released. -/
theorem c8_boundary_absorbs_check :
    (processWithBoundary (Except.error "boom")).1.success = false ∧
    LogEvent.unexpectedFailure "boom" ∈ (processWithBoundary (Except.error "boom")).1.log ∧
    (processWithBoundary (Except.error "boom")).2.tempReleased = true :=
  ⟨((c8_boundary_absorbs (Except.error "boom")).2.1 "boom" rfl).1,
   ((c8_boundary_absorbs (Except.error "boom")).2.1 "boom" rfl).2.2,
   (c8_boundary_absorbs (Except.error "boom")).1⟩

/-!
## Dimension Calculator (`calculate_terrain_dimensions`, lines 87-194)

Only the geographic-vs-projected classification (lines 113-147) is needed
by the claims; the degree-to-meter and Euclidean-distance bodies feed
diagnostic output only.  The classification reads the geotransform and the
pixel dimensions.
-/

/-- The six GDAL geotransform coefficients
`(g0, g1, g2, g3, g4, g5) = dataset.GetGeoTransform()`. -/
structure GeoTransform where
  g0 : ℚ
  g1 : ℚ
  g2 : ℚ
  g3 : ℚ
  g4 : ℚ
  g5 : ℚ

/-- Line 117: `top_left_x = gt[0]`. -/
def topLeftX (gt : GeoTransform) : ℚ := gt.g0

/-- Line 118: `top_left_y = gt[3]`. -/
def topLeftY (gt : GeoTransform) : ℚ := gt.g3

/-- Line 121: `top_right_x = gt[0] + cols*gt[1] + 0*gt[2]`. -/
def topRightX (gt : GeoTransform) (cols : ℕ) : ℚ :=
  gt.g0 + cols * gt.g1 + 0 * gt.g2

/-- Line 122: `top_right_y = gt[3] + cols*gt[4] + 0*gt[5]`. -/
def topRightY (gt : GeoTransform) (cols : ℕ) : ℚ :=
  gt.g3 + cols * gt.g4 + 0 * gt.g5

/-- Line 125: `bottom_left_x = gt[0] + 0*gt[1] + rows*gt[2]`. -/
def bottomLeftX (gt : GeoTransform) (rows : ℕ) : ℚ :=
  gt.g0 + 0 * gt.g1 + rows * gt.g2

/-- Line 126: `bottom_left_y = gt[3] + 0*gt[4] + rows*gt[5]`. -/
def bottomLeftY (gt : GeoTransform) (rows : ℕ) : ℚ :=
  gt.g3 + 0 * gt.g4 + rows * gt.g5

/-- The bottom-right corner's X under the affine map (the source never
computes it; defined here for the claim's comparison). -/
def bottomRightX (gt : GeoTransform) (cols rows : ℕ) : ℚ :=
  gt.g0 + cols * gt.g1 + rows * gt.g2

/-- The bottom-right corner's Y under the affine map (the source never
computes it; defined here for the claim's comparison). -/
def bottomRightY (gt : GeoTransform) (cols rows : ℕ) : ℚ :=
  gt.g3 + cols * gt.g4 + rows * gt.g5

/-- Lines 141-145: the `is_geographic` heuristic exactly as coded — it
tests `top_left_x`, `top_left_y`, `top_right_x`, `bottom_left_y` and the
two pixel-size coefficients, and nothing else. -/
def isGeographic (gt : GeoTransform) (cols rows : ℕ) : Bool :=
  decide (|topLeftX gt| ≤ 180) && decide (|topLeftY gt| ≤ 90) &&
    decide (|topRightX gt cols| ≤ 180) && decide (|bottomLeftY gt rows| ≤ 90) &&
    decide (|gt.g1| < 1) && decide (|gt.g5| < 1)

/-- Which of the two computation branches (line 147 `if is_geographic:`)
the dimension calculator takes. -/
inductive DimBranch where
  | geographic
  | projected
deriving DecidableEq

/-- Line 147: the branch selection of `calculate_terrain_dimensions`. -/
def terrainDimensionBranch (gt : GeoTransform) (cols rows : ℕ) : DimBranch :=
  if isGeographic gt cols rows then DimBranch.geographic else DimBranch.projected

/-- The C1 claim's condition: all four corners (top-left, top-right,
bottom-left, bottom-right) within the longitude/latitude bounds, plus the
two pixel-size coefficients below 1 in magnitude.  Follows the claim's
wording, for comparison with `isGeographic`. -/
def claimGeographicCondition (gt : GeoTransform) (cols rows : ℕ) : Prop :=
  |topLeftX gt| ≤ 180 ∧ |topLeftY gt| ≤ 90 ∧
  |topRightX gt cols| ≤ 180 ∧ |topRightY gt cols| ≤ 90 ∧
  |bottomLeftX gt rows| ≤ 180 ∧ |bottomLeftY gt rows| ≤ 90 ∧
  |bottomRightX gt cols rows| ≤ 180 ∧ |bottomRightY gt cols rows| ≤ 90 ∧
  |gt.g1| < 1 ∧ |gt.g5| < 1

instance decClaimGeographicCondition (gt : GeoTransform) (cols rows : ℕ) :
    Decidable (claimGeographicCondition gt cols rows) := by
  unfold claimGeographicCondition
  infer_instance

/-- A sheared geotransform: on a 100x100 raster its top-right corner has
Y = 95, outside the ±90 latitude bound, while every coordinate the code
actually checks stays in bounds. -/
def shearedGt : GeoTransform :=
  { g0 := 0, g1 := 1/2, g2 := 0, g3 := 0, g4 := 19/20, g5 := -1/2 }

/-- C1 counterexample: on `shearedGt` with a 100x100 raster the code takes
the geographic branch although the top-right corner's Y coordinate (95) is
outside [-90, 90], so the claimed four-corner condition is false. -/
theorem c1_counterexample :
    terrainDimensionBranch shearedGt 100 100 = DimBranch.geographic ∧
    topRightY shearedGt 100 = 95 ∧
    ¬ claimGeographicCondition shearedGt 100 100 :=
  ⟨by with_unfolding_all rfl,
   by with_unfolding_all rfl,
   of_decide_eq_true (by with_unfolding_all rfl)⟩

/-- C1 (amended): the geographic degree-to-meter branch is taken exactly
when `|top_left_x| ≤ 180`, `|top_left_y| ≤ 90`, `|top_right_x| ≤ 180`,
`|bottom_left_y| ≤ 90`, `|gt[1]| < 1` and `|gt[5]| < 1`.  The top-right
corner's Y, the bottom-left corner's X and the bottom-right corner are not
consulted. -/
theorem c1_geographic_classification (gt : GeoTransform) (cols rows : ℕ) :
    terrainDimensionBranch gt cols rows = DimBranch.geographic ↔
      (|topLeftX gt| ≤ 180 ∧ |topLeftY gt| ≤ 90 ∧ |topRightX gt cols| ≤ 180 ∧
       |bottomLeftY gt rows| ≤ 90 ∧ |gt.g1| < 1 ∧ |gt.g5| < 1) := by
  have hb : isGeographic gt cols rows = true ↔
      (|topLeftX gt| ≤ 180 ∧ |topLeftY gt| ≤ 90 ∧ |topRightX gt cols| ≤ 180 ∧
       |bottomLeftY gt rows| ≤ 90 ∧ |gt.g1| < 1 ∧ |gt.g5| < 1) := by
    simp [isGeographic, Bool.and_eq_true, decide_eq_true_eq, and_assoc]
  constructor
  · intro h
    apply hb.mp
    by_contra hfalse
    have hproj : terrainDimensionBranch gt cols rows = DimBranch.projected := by
      unfold terrainDimensionBranch
      rw [if_neg]
      simpa using hfalse
    rw [hproj] at h
    exact absurd h (by simp)
  · intro h
    unfold terrainDimensionBranch
    rw [if_pos (hb.mpr h)]

end UnityRawExport
